import Mathlib

/-!
Verification of the Metabase MCP server's discovery/search pipeline and
request gateway (`server.py`, `src/server.py`), as a shallow embedding.

Python strings are embedded as lists of characters (`Str`); JSON-null or
absent dictionary values are embedded as `Option.none` (Python's
`dict.get(key)` returns `None` in both cases, so the two are
indistinguishable to the code under study); upstream payloads that may not
be lists are embedded as `Payload`; a raised Python exception is embedded
as `Except.error`.
-/

/-- A Python string, as the list of its characters. -/
abbrev Str := List Char

/-- Python `s.lower()` (character-wise lowercasing). -/
def lowerStr (s : Str) : Str := s.map Char.toLower

/-- Python `s.strip()`: remove leading and trailing whitespace. -/
def pyStrip (s : Str) : Str :=
  ((s.dropWhile Char.isWhitespace).reverse.dropWhile Char.isWhitespace).reverse

/-- Whether `needle` is a prefix of `hay` (helper for the substring test). -/
def strStartsWith : Str → Str → Bool
  | _, [] => true
  | [], _ :: _ => false
  | a :: as, b :: bs => a == b && strStartsWith as bs

/-- Python `needle in hay` for strings: contiguous substring test. -/
def strContainsSub (hay needle : Str) : Bool :=
  match hay with
  | [] => strStartsWith [] needle
  | c :: t => strStartsWith (c :: t) needle || strContainsSub t needle

/-- Python `a <= b` on strings: lexicographic comparison by code point,
through the lexicographic linear order on `List Char`. -/
def strLe (a b : Str) : Bool := decide (a ≤ b)

/-- Python slice index resolution: for a list of length `n`, a negative
index counts from the end (clamped at 0), a nonnegative one is clamped
at `n`. -/
def pyIdx (n : Nat) (i : Int) : Nat :=
  if i < 0 then ((n : Int) + i).toNat else min i.toNat n

/-- Python `l[a:b]` for integer bounds `a`, `b`. -/
def pySlice {α : Type} (l : List α) (a b : Int) : List α :=
  (l.drop (pyIdx l.length a)).take (pyIdx l.length b - pyIdx l.length a)

/-- An upstream JSON payload where the code checks `isinstance(x, list)`:
either a list of items or some non-list shape. -/
inductive Payload (α : Type) where
  | list (items : List α)
  | nonList
deriving DecidableEq

/-- The one Python runtime error the embedded pipeline can raise:
`AttributeError`, from calling `.lower()` on `None`
(`server.py:174`, the sort key of `find_candidate_collections`). -/
inductive PyError where
  | attributeError
deriving DecidableEq

/-- An upstream collection object from `GET /collection`, with the fields
`find_candidate_collections` reads; every field can be null/absent
(`collection.get(...)` returns `None` then). An entirely falsy entry of
the upstream list (`None`, or an empty object) is embedded as `none` at
the list level. -/
structure Collection where
  id : Option Int
  name : Option Str
  description : Option Str
  parent_id : Option Int
  archived : Option Bool
deriving DecidableEq

/-- The projection of a matching collection built by
`find_candidate_collections` (`server.py:163-171`); `archived` defaults
to `False` when absent (`collection.get("archived", False)`). -/
structure MatchedCollection where
  collection_id : Option Int
  collection_name : Option Str
  description : Option Str
  parent_id : Option Int
  archived : Bool
deriving DecidableEq

/-- `server.py:162`: `search_term in collection_name or search_term in
collection_desc`, where each field is `(collection.get(...) or "").lower()`. -/
def collectionMatches (searchTerm : Str) (c : Collection) : Bool :=
  strContainsSub (lowerStr (c.name.getD [])) searchTerm ||
    strContainsSub (lowerStr (c.description.getD [])) searchTerm

/-- `server.py:163-171`: the projection appended for a matching collection. -/
def projectCollection (c : Collection) : MatchedCollection :=
  { collection_id := c.id
    collection_name := c.name
    description := c.description
    parent_id := c.parent_id
    archived := c.archived.getD false }

/-- `server.py:154-171`: the loop building `matched_collections` — skip
falsy entries, keep the projection of every entry that matches the search
term, in upstream order. -/
def matchedCollections (searchTerm : Str) (collections : List (Option Collection)) :
    List MatchedCollection :=
  collections.filterMap fun oc =>
    match oc with
    | none => none
    | some c => if collectionMatches searchTerm c then some (projectCollection c) else none

/-- `server.py:174`: the sort key `x.get("collection_name", "").lower()`.
The `"collection_name"` key is always present in a matched projection, so
the `""` default never applies; this key function is the value Python
computes only when `collection_name` is not null — the null case raises
`AttributeError` and is modelled in `find_candidate_collections`. -/
def collectionSortKey (m : MatchedCollection) : Str :=
  lowerStr (m.collection_name.getD [])

/-- `server.py:174`: ascending stable sort of the matched projections by
lowercased name (CPython's stable `list.sort`; insertion sort is the same
stable sort). -/
def sortCollectionsByName (l : List MatchedCollection) : List MatchedCollection :=
  l.insertionSort fun a b => strLe (collectionSortKey a) (collectionSortKey b) = true

/-- The `results` object of `find_candidate_collections`. The non-list
branch (`server.py:144-148`) builds it without a `returned_collections`
key, so that count is optional here. -/
structure FindResults where
  total_collections_searched : Nat
  matched_collections : Nat
  returned_collections : Option Nat
deriving DecidableEq

/-- The response of `find_candidate_collections` (the constant `note`
string is not modelled). -/
structure FindResult where
  query : Str
  collections : List MatchedCollection
  results : FindResults
deriving DecidableEq

/-- `find_candidate_collections` (`server.py:130-190`), as a function of
the query, the limit, and the payload `GET /collection` returned.
Python's `list.sort(key=f)` computes `f` on every element before
comparing, so the call raises `AttributeError` exactly when some matched
projection has a null `collection_name` (then
`x.get("collection_name", "") is None` and `None.lower()` raises). -/
def find_candidate_collections (query : Str) (limit_collections : Int)
    (payload : Payload (Option Collection)) : Except PyError FindResult :=
  match payload with
  | .nonList =>
      .ok { query := query
            collections := []
            results := { total_collections_searched := 0
                         matched_collections := 0
                         returned_collections := none } }
  | .list collections =>
      let searchTerm := lowerStr (pyStrip query)
      let matched := matchedCollections searchTerm collections
      if matched.any fun m => m.collection_name.isNone then
        .error .attributeError
      else
        let sorted := sortCollectionsByName matched
        let limited := pySlice sorted 0 limit_collections
        .ok { query := query
              collections := limited
              results := { total_collections_searched := collections.length
                           matched_collections := matched.length
                           returned_collections := some limited.length } }

/-- An upstream card object from `GET /card`, with the fields
`search_cards_in_collections` reads, each possibly null/absent, plus
`others`: the remaining upstream key/value pairs, which the projection
must never expose. -/
structure Card where
  id : Option Int
  name : Option Str
  description : Option Str
  collection_id : Option Int
  updated_at : Option Str
  created_at : Option Str
  others : List (Str × Str)
deriving DecidableEq

/-- The "essential fields" projection of a matched card
(`server.py:231-238`). -/
structure MatchedCard where
  id : Option Int
  name : Option Str
  description : Option Str
  collection_id : Option Int
  updated_at : Option Str
  created_at : Option Str
deriving DecidableEq

/-- `server.py:231-238`: keep only the six essential fields. -/
def projectCard (c : Card) : MatchedCard :=
  { id := c.id
    name := c.name
    description := c.description
    collection_id := c.collection_id
    updated_at := c.updated_at
    created_at := c.created_at }

/-- `server.py:229`: `search_term in card_name or search_term in
card_description`, each field being `(card.get(...) or "").lower()`. -/
def cardMatches (searchTerm : Str) (c : Card) : Bool :=
  strContainsSub (lowerStr (c.name.getD [])) searchTerm ||
    strContainsSub (lowerStr (c.description.getD [])) searchTerm

/-- What one iteration of the collection loop observes from
`metabase_client.request("GET", "/card")`: a payload, or a raised
exception (`err` — connection failures, and any other error inside the
per-collection `try`, e.g. a null entry in the card list). -/
inductive FetchResult where
  | ok (payload : Payload Card)
  | err
deriving DecidableEq

/-- `server.py:213-239`: the matches one loop iteration contributes for
collection id `cid` — nothing on a raised fetch or a non-list payload,
else the projections of the cards with `collection_id == cid` whose name
or description contains the search term, in upstream order. -/
def fetchMatches (searchTerm : Str) : Int × FetchResult → List MatchedCard
  | (cid, .ok (.list cards)) =>
      (((cards.filter fun card => card.collection_id == some cid).filter
          fun card => cardMatches searchTerm card).map projectCard)
  | (_, .ok .nonList) => []
  | (_, .err) => []

/-- `server.py:212-243`: `all_matches` after the loop over
`collection_ids`; each entry of `fetches` is one requested collection id
paired with the outcome of that iteration's `GET /card`. -/
def searchLoop (searchTerm : Str) (fetches : List (Int × FetchResult)) : List MatchedCard :=
  fetches.flatMap (fetchMatches searchTerm)

/-- `server.py:246`: the sort key `x.get("updated_at") or ""`. -/
def updatedKey (m : MatchedCard) : Str := m.updated_at.getD []

/-- `server.py:246`: stable sort of the merged matches, descending by
`updated_at` (missing value as empty string). CPython's
`sort(key, reverse=True)` keeps the original order of key-ties, as the
stable insertion sort under this reversed relation does. -/
def sortCardsDesc (l : List MatchedCard) : List MatchedCard :=
  l.insertionSort fun a b => strLe (updatedKey b) (updatedKey a) = true

/-- The `pagination` object shared by `search_cards_in_collections` and
`list_cards_paginated`. -/
structure Pagination where
  limit : Int
  offset : Int
  returned : Nat
  total_found : Nat
  has_more : Bool
deriving DecidableEq

/-- The response of `search_cards_in_collections` (the `note` string is
not modelled). -/
structure CardSearchResult where
  query : Str
  collections_searched : List Int
  pagination : Pagination
  cards : List MatchedCard
deriving DecidableEq

/-- `search_cards_in_collections` (`server.py:194-265`). The function of
the source fetches `GET /card` once per requested collection id; here the
id list together with each iteration's fetch outcome is the `fetches`
argument, so `collection_ids = fetches.map Prod.fst`. The body never
raises: a failed fetch is caught inside the loop (`server.py:241-243`)
and contributes no matches. -/
def search_cards_in_collections (query : Str) (fetches : List (Int × FetchResult))
    (limit offset : Int) : CardSearchResult :=
  let searchTerm := lowerStr (pyStrip query)
  let all_matches := searchLoop searchTerm fetches
  let sorted := sortCardsDesc all_matches
  let total_found := sorted.length
  let paginated := pySlice sorted offset (offset + limit)
  { query := query
    collections_searched := fetches.map Prod.fst
    pagination := { limit := limit
                    offset := offset
                    returned := paginated.length
                    total_found := total_found
                    has_more := decide ((offset + limit : Int) < (total_found : Int)) }
    cards := paginated }

/-- The paginated page of `list_cards_paginated` (`server.py:375-385`);
cards are returned raw, not projected. -/
structure ListCardsPage where
  cards : List Card
  limit : Int
  offset : Int
  returned : Nat
  total_available : Nat
  has_more : Bool
  filter : Str
deriving DecidableEq

/-- The response of `list_cards_paginated`: a page when the upstream
payload is a list, otherwise the raw payload passed through
(`server.py:387`). -/
inductive ListCardsResult where
  | page (p : ListCardsPage)
  | raw (payload : Payload Card)
deriving DecidableEq

/-- `list_cards_paginated` (`server.py:349-391`), as a function of the
limit, offset, filter type and the payload `GET /card` returned. -/
def list_cards_paginated (limit offset : Int) (filter_type : Str)
    (result : Payload Card) : ListCardsResult :=
  match result with
  | .list cards =>
      let paginated := pySlice cards offset (offset + limit)
      .page { cards := paginated
              limit := limit
              offset := offset
              returned := paginated.length
              total_available := cards.length
              has_more := decide ((offset + limit : Int) < (cards.length : Int))
              filter := filter_type }
  | .nonList => .raw .nonList

/-- The timeout settings the gateway reads (`src/config.py`), in seconds. -/
structure Settings where
  HTTP_CONNECT_TIMEOUT : Nat
  HTTP_READ_TIMEOUT : Nat
deriving DecidableEq

/-- The gateway client (`src/server.py:30-39`). -/
structure MetabaseClient where
  base_url : Str
  api_key : Str
deriving DecidableEq

/-- What one HTTP attempt by `httpx` yields: a received response (any
status), or one of the three transport failures the code classifies
(`src/server.py:75-86`), each carrying the `httpx` exception's text. -/
inductive HttpOutcome where
  | response (status : Nat) (body : Str)
  | connectTimeout (excText : Str)
  | readTimeout (excText : Str)
  | connectError (excText : Str)
deriving DecidableEq

/-- The classified failures `MetabaseClient.request` raises; the source
raises `Exception(message)` from four distinct branches, so the
classification is the branch (constructor) together with its message. -/
inductive GatewayError where
  | apiError (message : Str)
  | connectTimeoutError (message : Str)
  | readTimeoutError (message : Str)
  | connectErrorFailure (message : Str)
deriving DecidableEq

/-- Decimal rendering of a number, for interpolated messages. -/
def natStr (n : Nat) : Str := (toString n).data

/-- `httpx.Response.is_success`: status in 2xx. -/
def is_success (status : Nat) : Bool := 200 ≤ status && status < 300

/-- `src/server.py:43`: the request URL. -/
def requestUrl (client : MetabaseClient) (path : Str) : Str :=
  client.base_url ++ ("/api").data ++ path

/-- `src/server.py:66-68`: the non-2xx failure message,
`f"API request failed with status {response.status_code}: {response.text}"`. -/
def apiErrorMessage (status : Nat) (body : Str) : Str :=
  ("API request failed with status ").data ++ natStr status ++ (": ").data ++ body

/-- `src/server.py:76`: the connect-timeout message. -/
def connectTimeoutMessage (s : Settings) (url excText : Str) : Str :=
  ("Connection timeout (").data ++ natStr s.HTTP_CONNECT_TIMEOUT ++
    ("s) when connecting to ").data ++ url ++ (": ").data ++ excText

/-- `src/server.py:80`: the read-timeout message. -/
def readTimeoutMessage (s : Settings) (url excText : Str) : Str :=
  ("Read timeout (").data ++ natStr s.HTTP_READ_TIMEOUT ++
    ("s) when reading response from ").data ++ url ++ (": ").data ++ excText

/-- `src/server.py:84`: the connection-error message. -/
def connectErrorMessage (url excText : Str) : Str :=
  ("Connection error when connecting to ").data ++ url ++ (": ").data ++ excText

/-- `MetabaseClient.request` (`src/server.py:41-86`): one authenticated
request. `attempt` is what the single HTTP call issued by the method
yields; `furtherOutcomes` is what any further attempt would have yielded —
the definition never consumes it, which is the source's behaviour of
issuing exactly one HTTP call and never retrying a failure internally.
On success the parsed body is returned; a non-2xx response and the three
transport failures each raise their own classified error. -/
def MetabaseClient.request (client : MetabaseClient) (s : Settings) (method path : Str)
    (attempt : HttpOutcome) (furtherOutcomes : List HttpOutcome) :
    Except GatewayError Str :=
  let url := requestUrl client path
  match attempt with
  | .response status body =>
      if is_success status then .ok body
      else .error (.apiError (apiErrorMessage status body))
  | .connectTimeout e => .error (.connectTimeoutError (connectTimeoutMessage s url e))
  | .readTimeout e => .error (.readTimeoutError (readTimeoutMessage s url e))
  | .connectError e => .error (.connectErrorFailure (connectErrorMessage url e))

/-- For claim C10, a second definition following the spec's words: with an
empty search term, the matches for one iteration are simply all cards of
the requested collection, projected — no name/description test. -/
def fetchCardsById : Int × FetchResult → List MatchedCard
  | (cid, .ok (.list cards)) =>
      (cards.filter fun card => card.collection_id == some cid).map projectCard
  | (_, .ok .nonList) => []
  | (_, .err) => []

/-- For claim C10: every card of every successfully fetched list whose
`collection_id` is the requested id, projected, in loop order. -/
def allCardsInRequested (fetches : List (Int × FetchResult)) : List MatchedCard :=
  fetches.flatMap fetchCardsById

/-- The prefix test agrees with `List.IsPrefix`. -/
theorem strStartsWith_iff : ∀ hay needle : Str, strStartsWith hay needle = true ↔ needle <+: hay
  | hay, [] => by
    rw [show strStartsWith hay [] = true from by cases hay <;> rfl]
    simp [List.nil_prefix]
  | [], b :: bs => by
    rw [show strStartsWith [] (b :: bs) = false from rfl]
    simp
  | a :: as, b :: bs => by
    rw [show strStartsWith (a :: as) (b :: bs) = (a == b && strStartsWith as bs) from rfl]
    rw [Bool.and_eq_true, beq_iff_eq]
    rw [strStartsWith_iff as bs]
    rw [List.cons_prefix_cons]
    constructor
    · rintro ⟨rfl, h⟩; exact ⟨rfl, h⟩
    · rintro ⟨rfl, h⟩; exact ⟨rfl, h⟩

/-- The substring test agrees with `List.IsInfix`. -/
theorem strContainsSub_iff : ∀ hay needle : Str, strContainsSub hay needle = true ↔ needle <:+: hay
  | [], needle => by
    simp [strContainsSub, strStartsWith_iff, List.infix_nil, List.prefix_nil]
  | c :: t, needle => by
    simp [strContainsSub, strStartsWith_iff, strContainsSub_iff t needle,
      List.infix_cons_iff]

/-- The empty string is a substring of every string. -/
theorem strContainsSub_nil (hay : Str) : strContainsSub hay [] = true :=
  (strContainsSub_iff hay []).2 List.nil_infix

/-- Stripping an all-whitespace string yields the empty string. -/
theorem pyStrip_eq_nil (s : Str) (h : ∀ c ∈ s, c.isWhitespace = true) : pyStrip s = [] := by
  unfold pyStrip
  rw [List.dropWhile_eq_nil_iff.2 h]
  simp

/-- `strLe` is total. -/
theorem strLe_total (a b : Str) : strLe a b = true ∨ strLe b a = true := by
  simpa [strLe] using le_total a b

/-- `strLe` is transitive. -/
theorem strLe_trans {a b c : Str} (h1 : strLe a b = true) (h2 : strLe b c = true) :
    strLe a c = true := by
  simp only [strLe, decide_eq_true_eq] at h1 h2 ⊢
  exact le_trans h1 h2

/-- Only the empty string is at most the empty string. -/
theorem strLe_nil {s : Str} (h : strLe s [] = true) : s = [] := by
  cases s with
  | nil => rfl
  | cons c cs =>
    exfalso
    have hle : (c :: cs : Str) ≤ [] := by simpa [strLe] using h
    exact absurd hle (List.nil_lt_cons c cs).not_le

/-- A nonnegative slice index resolves to a clamped natural index. -/
theorem pyIdx_nonneg (n : Nat) {i : Int} (h : 0 ≤ i) : pyIdx n i = min i.toNat n := by
  unfold pyIdx
  rw [if_neg (not_lt.2 h)]

/-- Every Python slice is a contiguous segment of the list. -/
theorem pySlice_exists_append {α : Type} (l : List α) (a b : Int) :
    ∃ pre post, l = pre ++ pySlice l a b ++ post := by
  refine ⟨l.take (pyIdx l.length a),
    (l.drop (pyIdx l.length a)).drop (pyIdx l.length b - pyIdx l.length a), ?_⟩
  unfold pySlice
  rw [List.append_assoc, List.take_append_drop, List.take_append_drop]

/-- Every Python slice is a sublist of the list. -/
theorem pySlice_sublist {α : Type} (l : List α) (a b : Int) : (pySlice l a b).Sublist l :=
  (List.take_sublist _ _).trans (List.drop_sublist _ _)

/-- A slice `l[off : off+lim]` with nonnegative bounds has at most `lim`
elements. -/
theorem length_pySlice_le {α : Type} (l : List α) (off lim : Int)
    (hoff : 0 ≤ off) (hlim : 0 ≤ lim) :
    ((pySlice l off (off + lim)).length : Int) ≤ lim := by
  unfold pySlice
  rw [pyIdx_nonneg _ hoff, pyIdx_nonneg _ (by omega : (0:Int) ≤ off + lim)]
  rw [List.length_take, List.length_drop]
  have h3 : (off + lim).toNat = off.toNat + lim.toNat := Int.toNat_add hoff hlim
  have h4 : (lim.toNat : Int) = lim := Int.toNat_of_nonneg hlim
  omega

/-- The length of a prefix slice `l[:k]`, `k ≥ 0`. -/
theorem length_pySlice_zero {α : Type} (l : List α) (lim : Int) (h : 0 ≤ lim) :
    (pySlice l 0 lim).length = min l.length lim.toNat := by
  unfold pySlice
  rw [pyIdx_nonneg _ le_rfl, pyIdx_nonneg _ h]
  simp only [List.length_take, List.length_drop, Int.toNat_zero]
  omega

/-- The card sort is a permutation of its input. -/
theorem perm_sortCardsDesc (l : List MatchedCard) : (sortCardsDesc l).Perm l :=
  List.perm_insertionSort _ l

/-- The collection sort is a permutation of its input. -/
theorem perm_sortCollectionsByName (l : List MatchedCollection) :
    (sortCollectionsByName l).Perm l :=
  List.perm_insertionSort _ l

/-- The card sort really is descending in the `updated_at` key. -/
theorem pairwise_sortCardsDesc (l : List MatchedCard) :
    (sortCardsDesc l).Pairwise fun a b => strLe (updatedKey b) (updatedKey a) = true := by
  haveI : IsTotal MatchedCard fun a b => strLe (updatedKey b) (updatedKey a) = true :=
    ⟨fun a b => strLe_total (updatedKey b) (updatedKey a)⟩
  haveI : IsTrans MatchedCard fun a b => strLe (updatedKey b) (updatedKey a) = true :=
    ⟨fun _ _ _ h1 h2 => strLe_trans h2 h1⟩
  exact List.sorted_insertionSort _ l

/-- The collection sort really is ascending in the lowercased-name key. -/
theorem pairwise_sortCollectionsByName (l : List MatchedCollection) :
    (sortCollectionsByName l).Pairwise
      fun a b => strLe (collectionSortKey a) (collectionSortKey b) = true := by
  haveI : IsTotal MatchedCollection
      fun a b => strLe (collectionSortKey a) (collectionSortKey b) = true :=
    ⟨fun a b => strLe_total (collectionSortKey a) (collectionSortKey b)⟩
  haveI : IsTrans MatchedCollection
      fun a b => strLe (collectionSortKey a) (collectionSortKey b) = true :=
    ⟨fun _ _ _ h1 h2 => strLe_trans h1 h2⟩
  exact List.sorted_insertionSort _ l

/-- Membership in the merged match list, characterised against the
upstream fetches. -/
theorem mem_searchLoop {t : Str} {m : MatchedCard} {fetches : List (Int × FetchResult)} :
    m ∈ searchLoop t fetches ↔
      ∃ cid cards c, (cid, FetchResult.ok (Payload.list cards)) ∈ fetches ∧ c ∈ cards ∧
        c.collection_id = some cid ∧ cardMatches t c = true ∧ m = projectCard c := by
  unfold searchLoop
  rw [List.mem_flatMap]
  constructor
  · rintro ⟨⟨cid, fr⟩, hmem, hm⟩
    match fr with
    | .err => simp [fetchMatches] at hm
    | .ok .nonList => simp [fetchMatches] at hm
    | .ok (.list cards) =>
      simp only [fetchMatches, List.mem_map, List.mem_filter] at hm
      obtain ⟨c, ⟨⟨hc, hcid⟩, hmatch⟩, rfl⟩ := hm
      exact ⟨cid, cards, c, hmem, hc, by simpa using hcid, hmatch, rfl⟩
  · rintro ⟨cid, cards, c, hmem, hc, hcid, hmatch, rfl⟩
    refine ⟨(cid, .ok (.list cards)), hmem, ?_⟩
    simp only [fetchMatches, List.mem_map, List.mem_filter]
    exact ⟨c, ⟨⟨hc, by simp [hcid]⟩, hmatch⟩, rfl⟩

/-- A fetch that raised contributes nothing to the merged match list. -/
theorem searchLoop_skips_err (t : Str) (pre post : List (Int × FetchResult)) (cid : Int) :
    searchLoop t (pre ++ (cid, FetchResult.err) :: post) = searchLoop t (pre ++ post) := by
  unfold searchLoop
  rw [List.flatMap_append, List.flatMap_cons, List.flatMap_append]
  simp [fetchMatches]

/-- Inversion of a successful `find_candidate_collections` call on a
list payload. -/
theorem find_ok_inv {q : Str} {lim : Int} {cols : List (Option Collection)} {r : FindResult}
    (h : find_candidate_collections q lim (.list cols) = .ok r) :
    r = { query := q
          collections := pySlice
            (sortCollectionsByName (matchedCollections (lowerStr (pyStrip q)) cols)) 0 lim
          results := { total_collections_searched := cols.length
                       matched_collections :=
                         (matchedCollections (lowerStr (pyStrip q)) cols).length
                       returned_collections := some (pySlice
                         (sortCollectionsByName
                           (matchedCollections (lowerStr (pyStrip q)) cols)) 0 lim).length } } := by
  unfold find_candidate_collections at h
  dsimp only at h
  split at h
  · simp at h
  · exact (Except.ok.inj h).symm

/-- Claim C1 (code_bug evidence): on an upstream collection list whose
single entry has a null name and a matching description, the embedded
`find_candidate_collections` raises `AttributeError` instead of sorting
the null name as the empty string: the sort key
`x.get("collection_name", "").lower()` receives `None` because the
`"collection_name"` key is always present in the matched projection. -/
theorem c1_null_name_sort_crash :
    find_candidate_collections ['a'] 10
        (Payload.list [some { id := none, name := none, description := some ['a'],
                              parent_id := none, archived := none }])
      = Except.error PyError.attributeError := rfl

/-- Claim C7 (amended): on a non-list upstream payload the call succeeds
with empty `collections` and zero `total_collections_searched` and
`matched_collections`; the `returned_collections` key is absent from the
`results` object in this branch. -/
theorem c7_nonList_empty_result (q : Str) (lim : Int) :
    find_candidate_collections q lim Payload.nonList
      = Except.ok { query := q
                    collections := []
                    results := { total_collections_searched := 0
                                 matched_collections := 0
                                 returned_collections := none } } := rfl

/-- Claim C7, counterexample to the claim as stated: at the concrete
input, the non-list branch reports no `returned_collections` count at
all (the field is absent, not zero). -/
theorem c7_returned_collections_absent :
    find_candidate_collections ['x'] 10 Payload.nonList
        = Except.ok { query := ['x']
                      collections := []
                      results := { total_collections_searched := 0
                                   matched_collections := 0
                                   returned_collections := none } }
      ∧ (none : Option Nat) ≠ some 0 := ⟨rfl, by decide⟩

/-- Claim C2: in every `search_cards_in_collections` response,
`returned` is the length of the returned page and
`has_more ↔ offset + limit < total_found`; for nonnegative limit and
offset, `returned ≤ limit`; and the same invariants hold of every
`list_cards_paginated` page (with `total_available`). -/
theorem c2_pagination_invariants (q : Str) (fetches : List (Int × FetchResult))
    (lim off : Int) (ft : Str) (cards : List Card) :
    ((search_cards_in_collections q fetches lim off).pagination.returned
        = (search_cards_in_collections q fetches lim off).cards.length) ∧
    ((search_cards_in_collections q fetches lim off).pagination.has_more = true ↔
        off + lim
          < ((search_cards_in_collections q fetches lim off).pagination.total_found : Int)) ∧
    (0 ≤ lim → 0 ≤ off →
        ((search_cards_in_collections q fetches lim off).pagination.returned : Int) ≤ lim) ∧
    (∃ p, list_cards_paginated lim off ft (Payload.list cards) = ListCardsResult.page p ∧
        p.returned = p.cards.length ∧
        (p.has_more = true ↔ off + lim < (p.total_available : Int)) ∧
        (0 ≤ lim → 0 ≤ off → (p.returned : Int) ≤ lim)) := by
  refine ⟨rfl, ?_, ?_, ?_⟩
  · exact Iff.of_eq decide_eq_true_eq
  · intro hlim hoff
    exact length_pySlice_le _ off lim hoff hlim
  · refine ⟨_, rfl, rfl, ?_, ?_⟩
    · exact Iff.of_eq decide_eq_true_eq
    · intro hlim hoff
      exact length_pySlice_le _ off lim hoff hlim

/-- Claim C4: the returned cards page is a contiguous slice of the merged
match list globally sorted descending by `updated_at` (missing value as
empty string); the page itself is so sorted, and a card with missing
`updated_at` never appears before one with a non-empty value. -/
theorem c4_page_sorted_desc (q : Str) (fetches : List (Int × FetchResult)) (lim off : Int) :
    ((search_cards_in_collections q fetches lim off).cards
        = pySlice (sortCardsDesc (searchLoop (lowerStr (pyStrip q)) fetches))
            off (off + lim)) ∧
    (sortCardsDesc (searchLoop (lowerStr (pyStrip q)) fetches)).Pairwise
      (fun a b => strLe (updatedKey b) (updatedKey a) = true) ∧
    (∃ pre post, sortCardsDesc (searchLoop (lowerStr (pyStrip q)) fetches)
        = pre ++ (search_cards_in_collections q fetches lim off).cards ++ post) ∧
    (search_cards_in_collections q fetches lim off).cards.Pairwise
      (fun a b => strLe (updatedKey b) (updatedKey a) = true) ∧
    (search_cards_in_collections q fetches lim off).cards.Pairwise
      (fun a b => a.updated_at = none → updatedKey b = []) := by
  refine ⟨rfl, pairwise_sortCardsDesc _, pySlice_exists_append _ off (off + lim), ?_, ?_⟩
  · exact List.Pairwise.sublist (pySlice_sublist _ _ _) (pairwise_sortCardsDesc _)
  · refine (List.Pairwise.sublist (pySlice_sublist _ _ _) (pairwise_sortCardsDesc _)).imp ?_
    intro a b h hnone
    have ha : updatedKey a = [] := by simp [updatedKey, hnone]
    exact strLe_nil (ha ▸ h)

/-- Claim C5: every card of the returned page originates from a
successfully fetched upstream card whose `collection_id` equals one of
the requested collection ids, projected by `projectCard`; and the
projection depends only on the six essential fields, never on the other
upstream fields. -/
theorem c5_collection_scope_and_fields (q : Str) (fetches : List (Int × FetchResult))
    (lim off : Int) :
    (∀ m ∈ (search_cards_in_collections q fetches lim off).cards,
        ∃ cid cards c, (cid, FetchResult.ok (Payload.list cards)) ∈ fetches ∧ c ∈ cards ∧
          c.collection_id = some cid ∧ m = projectCard c ∧ m.collection_id = some cid ∧
          cid ∈ (search_cards_in_collections q fetches lim off).collections_searched) ∧
    (∀ (c : Card) (others1 others2 : List (Str × Str)),
        projectCard { c with others := others1 } = projectCard { c with others := others2 }) := by
  constructor
  · intro m hm
    have hm2 : m ∈ sortCardsDesc (searchLoop (lowerStr (pyStrip q)) fetches) :=
      (pySlice_sublist _ _ _).subset hm
    have hm3 : m ∈ searchLoop (lowerStr (pyStrip q)) fetches :=
      (perm_sortCardsDesc _).mem_iff.1 hm2
    obtain ⟨cid, cards, c, hmem, hc, hcid, _, rfl⟩ := mem_searchLoop.1 hm3
    refine ⟨cid, cards, c, hmem, hc, hcid, rfl, hcid, ?_⟩
    exact List.mem_map.2 ⟨(cid, FetchResult.ok (Payload.list cards)), hmem, rfl⟩
  · intro c others1 others2
    rfl

/-- The collection match test, characterised as substring containment. -/
theorem collectionMatches_iff (t : Str) (c : Collection) :
    collectionMatches t c = true ↔
      (t <:+: lowerStr (c.name.getD []) ∨ t <:+: lowerStr (c.description.getD [])) := by
  simp [collectionMatches, Bool.or_eq_true, strContainsSub_iff]

/-- Claim C3: the matched collections are exactly those non-null upstream
collections whose lowercased name or description contains the stripped,
lowercased query as a substring (null fields as empty); and every
collection of a successful response satisfies that test. -/
theorem c3_match_exactness (q : Str) (cols : List (Option Collection)) :
    (∀ m, m ∈ matchedCollections (lowerStr (pyStrip q)) cols ↔
        ∃ c, some c ∈ cols ∧
          (lowerStr (pyStrip q) <:+: lowerStr (c.name.getD []) ∨
            lowerStr (pyStrip q) <:+: lowerStr (c.description.getD [])) ∧
          m = projectCollection c) ∧
    (∀ (lim : Int) (r : FindResult),
        find_candidate_collections q lim (Payload.list cols) = Except.ok r →
        ∀ m ∈ r.collections,
          ∃ c, some c ∈ cols ∧
            (lowerStr (pyStrip q) <:+: lowerStr (c.name.getD []) ∨
              lowerStr (pyStrip q) <:+: lowerStr (c.description.getD [])) ∧
            m = projectCollection c) := by
  have hchar : ∀ m, m ∈ matchedCollections (lowerStr (pyStrip q)) cols ↔
      ∃ c, some c ∈ cols ∧
        (lowerStr (pyStrip q) <:+: lowerStr (c.name.getD []) ∨
          lowerStr (pyStrip q) <:+: lowerStr (c.description.getD [])) ∧
        m = projectCollection c := by
    intro m
    rw [matchedCollections, List.mem_filterMap]
    constructor
    · rintro ⟨oc, hmem, hf⟩
      match oc with
      | none => simp at hf
      | some c =>
        change (if collectionMatches (lowerStr (pyStrip q)) c = true
            then some (projectCollection c) else none) = some m at hf
        split at hf
        · rename_i hmatch
          exact ⟨c, hmem, (collectionMatches_iff _ _).1 hmatch,
            (Option.some.inj hf).symm⟩
        · simp at hf
    · rintro ⟨c, hmem, hmatch, rfl⟩
      refine ⟨some c, hmem, ?_⟩
      have hm2 : collectionMatches (lowerStr (pyStrip q)) c = true :=
        (collectionMatches_iff _ _).2 hmatch
      change (if collectionMatches (lowerStr (pyStrip q)) c = true
          then some (projectCollection c) else none) = some (projectCollection c)
      rw [if_pos hm2]
  refine ⟨hchar, ?_⟩
  intro lim r hok m hm
  obtain rfl := find_ok_inv hok
  have hm2 : m ∈ sortCollectionsByName (matchedCollections (lowerStr (pyStrip q)) cols) :=
    (pySlice_sublist _ _ _).subset hm
  have hm3 : m ∈ matchedCollections (lowerStr (pyStrip q)) cols :=
    (perm_sortCollectionsByName _).mem_iff.1 hm2
  exact (hchar m).1 hm3

/-- Claim C6: a fetch failure for one requested collection id contributes
zero matches while the other ids' matches, the pagination metadata, and
the full requested id list are exactly those of the same call without the
failing entry — and the call still returns (the embedded function is
total, mirroring the `try/except ... continue` of the source). -/
theorem c6_fetch_failure_degrades (q : Str) (pre post : List (Int × FetchResult))
    (cid : Int) (lim off : Int) :
    ((search_cards_in_collections q (pre ++ (cid, FetchResult.err) :: post) lim off).cards
        = (search_cards_in_collections q (pre ++ post) lim off).cards) ∧
    ((search_cards_in_collections q (pre ++ (cid, FetchResult.err) :: post) lim off).pagination.returned
        = (search_cards_in_collections q (pre ++ post) lim off).pagination.returned) ∧
    ((search_cards_in_collections q (pre ++ (cid, FetchResult.err) :: post) lim off).pagination.total_found
        = (search_cards_in_collections q (pre ++ post) lim off).pagination.total_found) ∧
    ((search_cards_in_collections q (pre ++ (cid, FetchResult.err) :: post) lim off).pagination.has_more
        = (search_cards_in_collections q (pre ++ post) lim off).pagination.has_more) ∧
    ((search_cards_in_collections q (pre ++ (cid, FetchResult.err) :: post) lim off).collections_searched
        = pre.map Prod.fst ++ cid :: post.map Prod.fst) := by
  have h := searchLoop_skips_err (lowerStr (pyStrip q)) pre post cid
  refine ⟨?_, ?_, ?_, ?_, ?_⟩
  · show pySlice (sortCardsDesc (searchLoop (lowerStr (pyStrip q))
        (pre ++ (cid, FetchResult.err) :: post))) off (off + lim)
      = pySlice (sortCardsDesc (searchLoop (lowerStr (pyStrip q))
        (pre ++ post))) off (off + lim)
    rw [h]
  · show (pySlice (sortCardsDesc (searchLoop (lowerStr (pyStrip q))
        (pre ++ (cid, FetchResult.err) :: post))) off (off + lim)).length
      = (pySlice (sortCardsDesc (searchLoop (lowerStr (pyStrip q))
        (pre ++ post))) off (off + lim)).length
    rw [h]
  · show (sortCardsDesc (searchLoop (lowerStr (pyStrip q))
        (pre ++ (cid, FetchResult.err) :: post))).length
      = (sortCardsDesc (searchLoop (lowerStr (pyStrip q)) (pre ++ post))).length
    rw [h]
  · show decide ((off + lim : Int) < ((sortCardsDesc (searchLoop (lowerStr (pyStrip q))
        (pre ++ (cid, FetchResult.err) :: post))).length : Int))
      = decide ((off + lim : Int) < ((sortCardsDesc (searchLoop (lowerStr (pyStrip q))
        (pre ++ post))).length : Int))
    rw [h]
  · show (pre ++ (cid, FetchResult.err) :: post).map Prod.fst = _
    simp

/-- Claim C8: a successful `find_candidate_collections` call on a list
payload with nonnegative limit reports `total_collections_searched` equal
to the raw upstream list length (null entries included),
`returned_collections = min matched_collections limit_collections`, and
hence never more returned than matched. -/
theorem c8_result_counts (q : Str) (lim : Int) (cols : List (Option Collection))
    (r : FindResult) (hlim : 0 ≤ lim)
    (hok : find_candidate_collections q lim (Payload.list cols) = Except.ok r) :
    r.results.total_collections_searched = cols.length ∧
    r.results.returned_collections
        = some (min r.results.matched_collections lim.toNat) ∧
    r.results.returned_collections.getD 0 ≤ r.results.matched_collections := by
  obtain rfl := find_ok_inv hok
  refine ⟨rfl, ?_, ?_⟩
  · show some (pySlice (sortCollectionsByName
        (matchedCollections (lowerStr (pyStrip q)) cols)) 0 lim).length
      = some (min (matchedCollections (lowerStr (pyStrip q)) cols).length lim.toNat)
    rw [length_pySlice_zero _ _ hlim, (perm_sortCollectionsByName _).length_eq]
  · show (some (pySlice (sortCollectionsByName
        (matchedCollections (lowerStr (pyStrip q)) cols)) 0 lim).length).getD 0
      ≤ (matchedCollections (lowerStr (pyStrip q)) cols).length
    rw [Option.getD_some, length_pySlice_zero _ _ hlim,
      (perm_sortCollectionsByName _).length_eq]
    omega

/-- The record a successful `find_candidate_collections "a" 10` call on an
empty upstream list returns, for the C8 witness. -/
def emptyFindOk : FindResult :=
  { query := ['a']
    collections := []
    results := { total_collections_searched := 0
                 matched_collections := 0
                 returned_collections := some 0 } }

/-- Witness for C8 at a concrete input: the empty upstream list with
query "a" and limit 10 yields the all-zero counts. -/
theorem c8_result_counts_witness :
    emptyFindOk.results.total_collections_searched
        = ([] : List (Option Collection)).length ∧
    emptyFindOk.results.returned_collections
        = some (min emptyFindOk.results.matched_collections (10 : Int).toNat) ∧
    emptyFindOk.results.returned_collections.getD 0
        ≤ emptyFindOk.results.matched_collections :=
  c8_result_counts ['a'] 10 [] emptyFindOk (by decide) rfl

/-- Claim C9: a received non-2xx response fails with the API error whose
message contains the status code and the response body; connect timeout,
read timeout and transport connection failure each fail with their own
classified error, pairwise distinct; and the result of a call depends
only on its single HTTP attempt — further prospective outcomes are never
consumed (no internal retry). -/
theorem c9_gateway_error_classification (client : MetabaseClient) (s : Settings)
    (method path : Str) (status : Nat) (body e1 e2 e3 : Str)
    (rest rest1 rest2 rest3 : List HttpOutcome) :
    (is_success status = false →
        client.request s method path (HttpOutcome.response status body) rest
          = Except.error (GatewayError.apiError (apiErrorMessage status body))) ∧
    (natStr status <:+: apiErrorMessage status body ∧
        body <:+: apiErrorMessage status body) ∧
    (client.request s method path (HttpOutcome.connectTimeout e1) rest1
        = Except.error (GatewayError.connectTimeoutError
            (connectTimeoutMessage s (requestUrl client path) e1))) ∧
    (client.request s method path (HttpOutcome.readTimeout e2) rest2
        = Except.error (GatewayError.readTimeoutError
            (readTimeoutMessage s (requestUrl client path) e2))) ∧
    (client.request s method path (HttpOutcome.connectError e3) rest3
        = Except.error (GatewayError.connectErrorFailure
            (connectErrorMessage (requestUrl client path) e3))) ∧
    (client.request s method path (HttpOutcome.connectTimeout e1) rest1
        ≠ client.request s method path (HttpOutcome.readTimeout e2) rest2) ∧
    (client.request s method path (HttpOutcome.connectTimeout e1) rest1
        ≠ client.request s method path (HttpOutcome.connectError e3) rest3) ∧
    (client.request s method path (HttpOutcome.readTimeout e2) rest2
        ≠ client.request s method path (HttpOutcome.connectError e3) rest3) ∧
    (∀ (o : HttpOutcome) (ra rb : List HttpOutcome),
        client.request s method path o ra = client.request s method path o rb) := by
  refine ⟨?_, ⟨?_, ?_⟩, rfl, rfl, rfl, ?_, ?_, ?_, ?_⟩
  · intro h
    show (if is_success status = true then (Except.ok body : Except GatewayError Str)
        else Except.error (GatewayError.apiError (apiErrorMessage status body))) = _
    rw [if_neg (by rw [h]; exact Bool.false_ne_true)]
  · exact ⟨("API request failed with status ").data, (": ").data ++ body,
      by simp [apiErrorMessage]⟩
  · exact ⟨("API request failed with status ").data ++ natStr status ++ (": ").data, [],
      by simp [apiErrorMessage]⟩
  · intro h
    exact GatewayError.noConfusion (Except.error.inj h)
  · intro h
    exact GatewayError.noConfusion (Except.error.inj h)
  · intro h
    exact GatewayError.noConfusion (Except.error.inj h)
  · intro o ra rb
    cases o <;> rfl

/-- Claim C10: for an empty or all-whitespace query the stripped search
term is empty, which is a substring of every string; the matching stage
of `find_candidate_collections` then keeps every non-null collection, and
the merged match list of `search_cards_in_collections` contains exactly
the cards whose `collection_id` is a requested id, projected. -/
theorem c10_whitespace_query_matches_all (q : Str)
    (hws : ∀ c ∈ q, c.isWhitespace = true) :
    lowerStr (pyStrip q) = [] ∧
    (∀ c : Collection, collectionMatches (lowerStr (pyStrip q)) c = true) ∧
    (∀ card : Card, cardMatches (lowerStr (pyStrip q)) card = true) ∧
    (∀ cols : List (Option Collection),
        matchedCollections (lowerStr (pyStrip q)) cols
          = (cols.filterMap id).map projectCollection) ∧
    (∀ fetches : List (Int × FetchResult),
        searchLoop (lowerStr (pyStrip q)) fetches = allCardsInRequested fetches) := by
  have h0 : lowerStr (pyStrip q) = [] := by rw [pyStrip_eq_nil q hws]; rfl
  have hcol : ∀ c : Collection, collectionMatches (lowerStr (pyStrip q)) c = true := by
    intro c
    rw [h0]
    simp [collectionMatches, strContainsSub_nil]
  have hcard : ∀ card : Card, cardMatches (lowerStr (pyStrip q)) card = true := by
    intro card
    rw [h0]
    simp [cardMatches, strContainsSub_nil]
  refine ⟨h0, hcol, hcard, ?_, ?_⟩
  · intro cols
    rw [matchedCollections, List.map_filterMap]
    apply List.filterMap_congr
    intro oc _
    match oc with
    | none => rfl
    | some c =>
      change (if collectionMatches (lowerStr (pyStrip q)) c = true
          then some (projectCollection c) else none) = _
      rw [if_pos (hcol c)]
      rfl
  · intro fetches
    unfold searchLoop allCardsInRequested
    have hfg : fetchMatches (lowerStr (pyStrip q)) = fetchCardsById := by
      funext pr
      match pr with
      | (cid, FetchResult.err) => rfl
      | (cid, FetchResult.ok Payload.nonList) => rfl
      | (cid, FetchResult.ok (Payload.list cards)) =>
        show (((cards.filter fun card => card.collection_id == some cid).filter
            fun card => cardMatches (lowerStr (pyStrip q)) card).map projectCard)
          = (cards.filter fun card => card.collection_id == some cid).map projectCard
        rw [List.filter_eq_self.2 fun a _ => hcard a]
    rw [hfg]

/-- Witness for C10 at the concrete all-whitespace query consisting of one
space and one tab. -/
theorem c10_whitespace_query_witness :
    lowerStr (pyStrip [' ', '\t']) = [] ∧
    (∀ c : Collection, collectionMatches (lowerStr (pyStrip [' ', '\t'])) c = true) ∧
    (∀ card : Card, cardMatches (lowerStr (pyStrip [' ', '\t'])) card = true) ∧
    (∀ cols : List (Option Collection),
        matchedCollections (lowerStr (pyStrip [' ', '\t'])) cols
          = (cols.filterMap id).map projectCollection) ∧
    (∀ fetches : List (Int × FetchResult),
        searchLoop (lowerStr (pyStrip [' ', '\t'])) fetches = allCardsInRequested fetches) :=
  c10_whitespace_query_matches_all [' ', '\t'] (by decide)
